import Mathlib

/-!
Verification development for the video-description server
(`src/unnamed/part_000`, the version at lines 527–1530, which is the one the
specification and the claims reference).

The development has two layers:

* an event-loop model of `ProcessingQueue` (constants `MAX_CONCURRENT_REQUESTS`,
  `maxRetries`, methods `add`, `removeFromQueue`, `processQueue`, and the
  timers those methods arm).  JavaScript is single threaded: every synchronous
  segment of code runs atomically, and the asynchronous continuations
  (`setTimeout` callbacks, the resumption of `await this.processVideo(...)`)
  are modelled as pending tasks that a nondeterministic step relation may fire
  in any order.  The eventual result of one dispatched `processVideo` run is an
  `Outcome` chosen nondeterministically at dispatch time, standing for the
  behaviour of the external collaborators (Drive, Gemini, SQLite).

* a functional model of the pipeline bodies `processVideo`,
  `performVideoAnalysis`, `getVideoDescription` and `cleanupTempFile`,
  parameterised by the collaborator results and instrumented with an effect
  log and an explicit file-system state.
-/

namespace VideoServer

/-! ### Constants (`src/unnamed/part_000`, lines 538, 549) -/

def MAX_CONCURRENT_REQUESTS : Nat := 2

def maxRetries : Nat := 2

/-! ### Responses sent through a queued request's `res` object.

`conflict` is the 409 of `add`, `timeout408` the 408 of the HTTP timeout
callback, `success` the `res.json` of `processVideo` (with its `cached` flag),
`failure500` the terminal 500 of `processQueue`'s catch block carrying the
reported `attempts: attempts + 1` field. -/

inductive VResp
  | conflict
  | timeout408
  | success (cached : Bool)
  | failure500 (attempts : Nat)
  deriving DecidableEq, Repr

/-- The eventual result of one `await this.processVideo(videoId, res)`:
either it returned normally after (conditionally) sending `r`, or it threw an
error whose `isRetryableError` classification is `retryable`. -/
inductive Outcome
  | respond (r : VResp)
  | raiseErr (retryable : Bool)
  deriving DecidableEq, Repr

/-- A queue entry (`queueItem = { videoId, res, timestamp, timeout }`,
line 588).  The `res` object is identified by a numeric id; its armed HTTP
timer lives in the pending-task list, keyed by the same pair. -/
structure QItem where
  videoId : String
  resId : Nat
  deriving DecidableEq, Repr

/-- Pending asynchronous work of the event loop:
the HTTP timeout armed in `add` (line 576), the continuation of a dispatched
`await this.processVideo` (the catch/finally of `processQueue`), the deferred
retry callback (line 646, with its computed delay), and the
`setTimeout(() => this.processQueue(), 1000)` of the finally block. -/
inductive TimerTask
  | httpTimeout (videoId : String) (resId : Nat)
  | settle (videoId : String) (resId : Nat) (outcome : Outcome)
  | retryWake (videoId : String) (delayMs : Nat)
  | continueTick
  deriving DecidableEq, Repr

/-- The mutable state of the scheduler: the fields of `ProcessingQueue`
(`queue`, `processingIds`, `retryAttempts`), the module-level counter
`currentProcessing`, the per-response `headersSent` flags, a log of the
responses actually sent, and the pending asynchronous tasks. -/
structure QState where
  queue : List QItem
  processingIds : List String
  retryAttempts : List (String × Nat)
  currentProcessing : Nat
  headersSent : List Nat
  responses : List (Nat × VResp)
  pending : List TimerTask
  deriving DecidableEq, Repr

def initState : QState :=
  { queue := [], processingIds := [], retryAttempts := [],
    currentProcessing := 0, headersSent := [], responses := [], pending := [] }

/-! ### Small executable helpers for the sets and maps the code uses -/

/-- `this.processingIds.has(v)` (a JS `Set` of strings). -/
def hasStr (l : List String) (v : String) : Bool :=
  match l with
  | [] => false
  | u :: rest => if u = v then true else hasStr rest v

/-- `res.headersSent` membership for a response id. -/
def hasNat (l : List Nat) (n : Nat) : Bool :=
  match l with
  | [] => false
  | m :: rest => if m = n then true else hasNat rest n

/-- `this.queue.some(item => item.videoId === videoId)` (line 566). -/
def queueHas (v : String) : List QItem → Bool
  | [] => false
  | it :: rest => if it.videoId = v then true else queueHas v rest

/-- `this.retryAttempts.get(videoId)` (a JS `Map`). -/
def alookup (v : String) : List (String × Nat) → Option Nat
  | [] => none
  | (k, n) :: rest => if k = v then some n else alookup v rest

/-- `this.retryAttempts.set(videoId, n)`. -/
def aset (v : String) (n : Nat) : List (String × Nat) → List (String × Nat)
  | [] => [(v, n)]
  | (k, m) :: rest => if k = v then (v, n) :: rest else (k, m) :: aset v n rest

/-- `this.retryAttempts.delete(videoId)`. -/
def aerase (v : String) : List (String × Nat) → List (String × Nat)
  | [] => []
  | (k, m) :: rest => if k = v then rest else (k, m) :: aerase v rest

/-- `this.processingIds.delete(v)`. -/
def eraseStr (v : String) : List String → List String
  | [] => []
  | u :: rest => if u = v then rest else u :: eraseStr v rest

/-- `clearTimeout` / consumption of a fired timer: drop one pending task. -/
def eraseTask (t : TimerTask) : List TimerTask → List TimerTask
  | [] => []
  | u :: rest => if u = t then rest else u :: eraseTask t rest

/-- Sending a response through `res`: flips `headersSent` for that response
object and appends the payload to the log. -/
def send (resId : Nat) (r : VResp) (s : QState) : QState :=
  { s with headersSent := resId :: s.headersSent,
           responses := s.responses ++ [(resId, r)] }

/-! ### `removeFromQueue` (lines 602–612) -/

/-- `this.queue.findIndex(...)` followed by `splice(index, 1)`: remove the
first item with the given `videoId`, returning the remaining queue and the
removed item, if any. -/
def extractFirst (v : String) : List QItem → List QItem × Option QItem
  | [] => ([], none)
  | it :: rest =>
    if it.videoId = v then (rest, some it)
    else
      let p := extractFirst v rest
      (it :: p.1, p.2)

/-- `removeFromQueue(videoId)`: splice the item out of the queue (if present),
`clearTimeout(item.timeout)` on its HTTP timer, and
`this.processingIds.delete(videoId)`. -/
def removeFromQueue (v : String) (s : QState) : QState :=
  let p := extractFirst v s.queue
  let s1 :=
    match p.2 with
    | some it =>
        { s with queue := p.1,
                 pending := eraseTask (TimerTask.httpTimeout v it.resId) s.pending }
    | none => s
  { s1 with processingIds := eraseStr v s1.processingIds }

/-! ### `processQueue` (lines 614–668), dispatch segment -/

/-- `this.queue.find(item => !this.processingIds.has(item.videoId))`
(line 621). -/
def findEligible (processingIds : List String) : List QItem → Option QItem
  | [] => none
  | it :: rest =>
    if hasStr processingIds it.videoId then findEligible processingIds rest
    else some it

/-- The synchronous prefix of `processQueue`: the capacity guard (line 616),
the eligible-item search, and — having found one — the atomic
`processingIds.add(videoId); currentProcessing++` followed by dispatching
`processVideo` (there is no `await` between the guard and the increment).
The continuation of the dispatched run is a pending `settle` task carrying
`o`, the nondeterministically chosen eventual outcome of the run. -/
def processQueue (o : Outcome) (s : QState) : QState :=
  if MAX_CONCURRENT_REQUESTS ≤ s.currentProcessing ∨ s.queue = [] then s
  else
    match findEligible s.processingIds s.queue with
    | none => s
    | some it =>
        { s with processingIds := it.videoId :: s.processingIds,
                 currentProcessing := s.currentProcessing + 1,
                 pending := TimerTask.settle it.videoId it.resId o :: s.pending }

/-! ### `add` (lines 555–600) -/

/-- `add(videoId, res)`: reject with 409 if the id is being processed or is
already queued; otherwise arm the HTTP timeout, push the queue item, and run
one `processQueue` attempt immediately. -/
def addFn (v : String) (resId : Nat) (o : Outcome) (s : QState) : QState :=
  if hasStr s.processingIds v then send resId VResp.conflict s
  else if queueHas v s.queue then send resId VResp.conflict s
  else
    let s1 := { s with queue := s.queue ++ [⟨v, resId⟩],
                       pending := TimerTask.httpTimeout v resId :: s.pending }
    processQueue o s1

/-! ### Continuation of a dispatched run (lines 634–668) -/

/-- The resumption of `await this.processVideo(videoId, res)` together with
`processQueue`'s catch and finally blocks.

* A normal return means `processVideo` already sent its response (cache hit or
  fresh success), guarded by `res.headersSent`.
* A thrown error runs the catch block: look up the attempt count
  (`this.retryAttempts.get(videoId) || 0`); if attempts remain and the error is
  retryable, record `attempts + 1` and arm the deferred callback with delay
  `5000 * (attempts + 1)`; otherwise delete the retry entry and (if headers are
  unsent) send the 500 carrying `attempts + 1`.
* The finally block then runs unconditionally: `currentProcessing--`,
  `removeFromQueue(videoId)`, and arming `setTimeout(processQueue, 1000)`. -/
def settleFn (v : String) (resId : Nat) (o : Outcome) (s : QState) : QState :=
  let s1 :=
    match o with
    | Outcome.respond r => if hasNat s.headersSent resId then s else send resId r s
    | Outcome.raiseErr retryable =>
        let attempts := (alookup v s.retryAttempts).getD 0
        if attempts < maxRetries ∧ retryable then
          { s with retryAttempts := aset v (attempts + 1) s.retryAttempts,
                   pending := TimerTask.retryWake v (5000 * (attempts + 1)) :: s.pending }
        else
          let s2 := { s with retryAttempts := aerase v s.retryAttempts }
          if hasNat s2.headersSent resId then s2
          else send resId (VResp.failure500 (attempts + 1)) s2
  let s3 := { s1 with currentProcessing := s1.currentProcessing - 1 }
  let s4 := removeFromQueue v s3
  { s4 with pending := TimerTask.continueTick :: s4.pending }

/-- The HTTP timeout callback (lines 576–586): if headers are unsent, send the
408, then `removeFromQueue(videoId)`. -/
def httpTimeoutFire (v : String) (resId : Nat) (s : QState) : QState :=
  let s1 := if hasNat s.headersSent resId then s else send resId VResp.timeout408 s
  removeFromQueue v s1

/-! ### The event-loop step relation.

Any pending task may fire (timer delays are abstracted away — this only adds
interleavings), a new submission may arrive at any time, and the 2-second
`setInterval` tick may run at any time.  Each `processQueue` invocation takes
the eventual outcome of the run it may dispatch as a nondeterministic
parameter. -/

inductive QStep : QState → QState → Prop
  | add (s : QState) (v : String) (resId : Nat) (o : Outcome) :
      QStep s (addFn v resId o s)
  | tick (s : QState) (o : Outcome) :
      QStep s (processQueue o s)
  | fireHttpTimeout (s : QState) (v : String) (resId : Nat)
      (h : TimerTask.httpTimeout v resId ∈ s.pending) :
      QStep s (httpTimeoutFire v resId
        { s with pending := eraseTask (TimerTask.httpTimeout v resId) s.pending })
  | fireSettle (s : QState) (v : String) (resId : Nat) (o : Outcome)
      (h : TimerTask.settle v resId o ∈ s.pending) :
      QStep s (settleFn v resId o
        { s with pending := eraseTask (TimerTask.settle v resId o) s.pending })
  | fireRetryWake (s : QState) (v : String) (d : Nat) (o : Outcome)
      (h : TimerTask.retryWake v d ∈ s.pending) :
      QStep s (processQueue o
        { s with pending := eraseTask (TimerTask.retryWake v d) s.pending,
                 processingIds := eraseStr v s.processingIds })
  | fireContinueTick (s : QState) (o : Outcome)
      (h : TimerTask.continueTick ∈ s.pending) :
      QStep s (processQueue o
        { s with pending := eraseTask TimerTask.continueTick s.pending })

/-- States reachable from server start. -/
def QReachable (s : QState) : Prop :=
  Relation.ReflTransGen QStep initState s

/-! ## Pipeline layer

Functional models of `processVideo` (lines 684–744), `performVideoAnalysis`
(lines 746–790), `cleanupTempFile` (lines 1166–1175) and `getVideoDescription`
(lines 1023–1164), parameterised by the collaborator results.  `JSON.parse`
is a host builtin, modelled by an arbitrary partial parser
`parse : String → Option J` into an arbitrary type `J` of parsed values. -/

/-- The pipeline stages a run actually invokes, in order.  `dbGet`
is `getVideoFromDB`, `download` is `downloadVideoFromDrive`, `analyze` is
`getVideoDescription`, `dbInsert` is `insertVideo`, `cleanup p` is
`cleanupTempFile(p)`. -/
inductive Effect
  | dbGet
  | download
  | analyze
  | dbInsert
  | cleanup (path : String)
  deriving DecidableEq, Repr

/-- The temporary directory, as the set of paths currently on disk. -/
structure FS where
  files : List String
  deriving DecidableEq, Repr

/-- `cleanupTempFile(filePath)` (lines 1166–1175): delete-if-exists, errors
swallowed.  After it, the path is not on disk. -/
def cleanupTempFile (p : String) (fs : FS) : FS :=
  if p ∈ fs.files then ⟨fs.files.filter (fun q => q ≠ p)⟩ else fs

/-- A row of the `videos` table (`drive_id`, `description`, nullable
`token_usage`), both payload columns stored as text. -/
structure DBRec where
  driveId : String
  description : String
  tokenUsage : Option String
  deriving DecidableEq, Repr

/-- A description value after the `JSON.parse`-with-fallback idiom: either a
parsed value or the raw stored string. -/
inductive DescVal (J : Type) where
  | json (j : J)
  | raw (s : String)
  deriving DecidableEq, Repr

/-- `usageMetadata`-derived token counts (with the `|| 0` defaults already
applied by the collaborator model). -/
structure Usage where
  promptTokens : Nat
  candidatesTokens : Nat
  totalTokens : Nat
  deriving DecidableEq, Repr

/-- The normalized output of one `getVideoDescription` success: either the
parsed JSON or the error-tagged placeholder built on a parse failure
(lines 1125–1129), which carries `raw_response: description.substring(0, 1000)`
(the `parsed_at` clock value is omitted). -/
inductive GDesc (J : Type) where
  | json (j : J)
  | parseErrorPlaceholder (raw_response : String)
  deriving DecidableEq, Repr

/-- The value returned by `getVideoDescription` (lines 1132–1140). -/
structure GResult (J : Type) where
  description : GDesc J
  modelUsed : String
  tokenUsage : Usage
  deriving DecidableEq, Repr

/-! ### `getVideoDescription` (lines 1023–1164) -/

/-- One entry of `modelConfigs` (lines 1038–1041).  File sizes are
`stats.size / (1024 * 1024)`; division of an integer byte count by the power
of two `2^20` is exact in binary floating point, so sizes and bounds are
modelled as exact rationals. -/
structure ModelConfig where
  name : String
  maxSizeMB : ℚ
  deriving DecidableEq, Repr

def modelConfigs : List ModelConfig :=
  [⟨"gemini-2.5-flash", 50⟩, ⟨"gemini-2.5-pro", 30⟩]

/-- First replacement pass, `description.replace(/```json\n?/g, '')`:
left-to-right scan removing each occurrence of three backticks + `json`,
together with one directly following newline if present. -/
def stripJsonFence : List Char → List Char
  | '`' :: '`' :: '`' :: 'j' :: 's' :: 'o' :: 'n' :: '\n' :: rest => stripJsonFence rest
  | '`' :: '`' :: '`' :: 'j' :: 's' :: 'o' :: 'n' :: rest => stripJsonFence rest
  | c :: rest => c :: stripJsonFence rest
  | [] => []

/-- Second replacement pass, `.replace(/```\n?/g, '')`. -/
def stripTickFence : List Char → List Char
  | '`' :: '`' :: '`' :: '\n' :: rest => stripTickFence rest
  | '`' :: '`' :: '`' :: rest => stripTickFence rest
  | c :: rest => c :: stripTickFence rest
  | [] => []

/-- Lines 1116–1119: `response.text().trim()`, then the two fence-stripping
replacements, then `.trim()`. -/
def cleanResponse (s : String) : String :=
  (String.mk (stripTickFence (stripJsonFence s.trim.toList))).trim

/-- The per-model success continuation (lines 1115–1140): clean the response
text, `JSON.parse` it, fall back to the error-tagged placeholder on a parse
failure, and package the result with the model name and token usage. -/
def handleModelText {J : Type} (parse : String → Option J) (name : String)
    (text : String) (usage : Usage) : GResult J :=
  let cleaned := cleanResponse text
  let description :=
    match parse cleaned with
    | some j => GDesc.json j
    | none => GDesc.parseErrorPlaceholder (cleaned.take 1000)
  { description := description, modelUsed := name, tokenUsage := usage }

/-- Structured stand-ins for the error messages `getVideoDescription` can
throw.  (`raceLost e` is a Gemini-call failure inside the model loop; it never
escapes the loop because the inner catch `continue`s.) -/
inductive GErr
  | notConfigured
  | statError (msg : String)
  | fileTooLarge (sizeMB : ℚ)
  | allModelsTooLarge (sizeMB : ℚ)
  | readError (msg : String)
  | allModelsFailed
  deriving DecidableEq, Repr

/-- The model loop (lines 1084–1148): try each eligible config in order; a
failed `generateContent`/timeout race is caught and falls through to the next
config (`continue`, line 1144); a success returns immediately; if every config
failed, throw `Todos los modelos de Gemini fallaron`. -/
def tryModels {J : Type} (parse : String → Option J)
    (attempt : String → Except String (String × Usage)) :
    List ModelConfig → Except GErr (GResult J)
  | [] => Except.error GErr.allModelsFailed
  | c :: rest =>
    match attempt c.name with
    | Except.error _ => tryModels parse attempt rest
    | Except.ok (text, usage) => Except.ok (handleModelText parse c.name text usage)

/-- `getVideoDescription(filePath)` (lines 1023–1164).

Parameters stand for the collaborators: `configured` for `genAI`, `stat` for
`fs.statSync` (already converted to MB), `readF` for `fs.readFileSync`, and
`attempt name` for the `generateContent`‑vs‑timeout race of the named model
(returning the trimmed response text and its usage metadata).

The body: reject if unconfigured; stat the file; reject sizes above 50 MB;
filter `modelConfigs` by `fileSizeInMB <= config.maxSizeMB`; reject if no
model is eligible; read the file; then run the model loop.  The trailing
catch clause (lines 1150–1163) only relabels the *message* of an error
already thrown — it maps messages containing `500`/`503`/`403`/`429`, none of
which occur in the messages thrown by this body, since Gemini-call errors are
consumed by the loop's `continue` — so it is the identity here and is not
modelled separately. -/
def getVideoDescription {J : Type} (parse : String → Option J)
    (configured : Bool) (stat : Except String ℚ) (readF : Except String Unit)
    (attempt : String → Except String (String × Usage)) :
    Except GErr (GResult J) :=
  if ¬configured then Except.error GErr.notConfigured
  else
    match stat with
    | Except.error e => Except.error (GErr.statError e)
    | Except.ok fileSizeInMB =>
      if 50 < fileSizeInMB then Except.error (GErr.fileTooLarge fileSizeInMB)
      else
        let availableModels := modelConfigs.filter (fun c => fileSizeInMB ≤ c.maxSizeMB)
        if availableModels.isEmpty then Except.error (GErr.allModelsTooLarge fileSizeInMB)
        else
          match readF with
          | Except.error e => Except.error (GErr.readError e)
          | Except.ok _ => tryModels parse attempt availableModels

/-! ### `performVideoAnalysis` (lines 746–790) -/

/-- The value produced by a full analysis (the `analysisResult` of line 762):
abstractly, the `getVideoDescription` result for some parsed-value type `J`. -/
structure AnalysisOutput (J : Type) where
  description : GDesc J
  modelUsed : String
  tokenUsage : Usage
  deriving DecidableEq, Repr

/-- `performVideoAnalysis(videoId)`.

Collaborator parameters: `download` is the `downloadVideoFromDrive`‑vs‑60 s
race (its error case covers both a failed download and the race timing out
before the path was delivered — in either case the local `filePath` is never
assigned); `analyze p` is the `getVideoDescription(p)`‑vs‑timeout race; and
`insertDB` is `insertVideo`.  `fs` is the temporary directory; a successful
download puts the path on disk.

The `finally` block runs on every exit of the body, timeout races included
(a lost race rejects the `await`, which still unwinds through `finally`):
if `filePath` was assigned, `cleanupTempFile(filePath)` runs.

Returns the outcome, the final file-system state, and the effect log. -/
def performVideoAnalysis {J : Type} (download : Except String String)
    (analyze : String → Except String (AnalysisOutput J))
    (insertDB : Except String Unit) (fs : FS) :
    Except String (AnalysisOutput J) × FS × List Effect :=
  match download with
  | Except.error e => (Except.error e, fs, [Effect.download])
  | Except.ok filePath =>
    let fs1 : FS := ⟨filePath :: fs.files⟩
    match analyze filePath with
    | Except.error e =>
        (Except.error e, cleanupTempFile filePath fs1,
         [Effect.download, Effect.analyze, Effect.cleanup filePath])
    | Except.ok result =>
      match insertDB with
      | Except.error e =>
          (Except.error e, cleanupTempFile filePath fs1,
           [Effect.download, Effect.analyze, Effect.dbInsert, Effect.cleanup filePath])
      | Except.ok _ =>
          (Except.ok result, cleanupTempFile filePath fs1,
           [Effect.download, Effect.analyze, Effect.dbInsert, Effect.cleanup filePath])

/-! ### `processVideo` (lines 684–744) -/

/-- The JSON body `processVideo` sends on the cache-hit path (lines 707–714):
the stored row with both text columns run through `JSON.parse`-with-fallback,
and `cached: true`. -/
structure CachedBody (J : Type) where
  drive_id : String
  description : DescVal J
  cached : Bool
  tokenUsage : Option J
  deriving DecidableEq, Repr

/-- Build the cache-hit response body from a stored row: parse the stored
description, keeping the raw string if `JSON.parse` fails (lines 691–696);
parse `token_usage` if present, keeping `null` on failure (lines 698–705);
`cached: true`. -/
def cachedResponse {J : Type} (parse : String → Option J) (rec : DBRec) :
    CachedBody J :=
  { drive_id := rec.driveId,
    description :=
      match parse rec.description with
      | some j => DescVal.json j
      | none => DescVal.raw rec.description,
    cached := true,
    tokenUsage := rec.tokenUsage.bind parse }

/-- The response bodies `processVideo` can send: the cache hit
(`cached: true`) or the fresh result (`cached: false`, lines 730–738). -/
inductive PVBody (J : Type) where
  | cacheHit (body : CachedBody J)
  | fresh (drive_id : String) (result : AnalysisOutput J)
  deriving DecidableEq, Repr

/-- Collaborator results for one `processVideo` run. -/
structure PVEnv (J : Type) where
  /-- `getVideoFromDB(videoId)`: a row, no row, or a DB error. -/
  dbGet : Except String (Option DBRec)
  /-- the download race, see `performVideoAnalysis`. -/
  download : Except String String
  /-- the analysis race, see `performVideoAnalysis`. -/
  analyze : String → Except String (AnalysisOutput J)
  /-- `insertVideo`. -/
  insertDB : Except String Unit
  /-- whether the `ANALYSIS_TIMEOUT` promise won the `Promise.race` of
  line 728 (the analysis then keeps running in the background, so its
  effects and its cleanup still appear in the log). -/
  raceTimedOut : Bool

/-- `processVideo(videoId, res)`.

Returns `(outcome, fs, effects)` where `outcome` is an error (a thrown
exception, rethrown at line 742 for `processQueue`'s catch block) or the
response body sent (none if `res.headersSent` was already set).  The cache
branch returns before any download/analysis is started. -/
def processVideo {J : Type} (parse : String → Option J) (env : PVEnv J)
    (videoId : String) (headersSent : Bool) (fs : FS) :
    Except String (Option (PVBody J)) × FS × List Effect :=
  match env.dbGet with
  | Except.error e => (Except.error e, fs, [Effect.dbGet])
  | Except.ok (some rec) =>
      (Except.ok (if headersSent then none else some (PVBody.cacheHit (cachedResponse parse rec))),
       fs, [Effect.dbGet])
  | Except.ok none =>
    let p := performVideoAnalysis env.download env.analyze env.insertDB fs
    if env.raceTimedOut then
      (Except.error "Procesamiento excedió el tiempo límite", p.2.1,
       Effect.dbGet :: p.2.2)
    else
      match p.1 with
      | Except.error e => (Except.error e, p.2.1, Effect.dbGet :: p.2.2)
      | Except.ok result =>
          (Except.ok (if headersSent then none else some (PVBody.fresh videoId result)),
           p.2.1, Effect.dbGet :: p.2.2)

/-! ## Helper lemmas -/

theorem send_currentProcessing (resId : Nat) (r : VResp) (s : QState) :
    (send resId r s).currentProcessing = s.currentProcessing := rfl

theorem removeFromQueue_currentProcessing (v : String) (s : QState) :
    (removeFromQueue v s).currentProcessing = s.currentProcessing := by
  unfold removeFromQueue
  cases hp : (extractFirst v s.queue).2 <;> simp [hp]

theorem removeFromQueue_retryAttempts (v : String) (s : QState) :
    (removeFromQueue v s).retryAttempts = s.retryAttempts := by
  unfold removeFromQueue
  cases hp : (extractFirst v s.queue).2 <;> simp [hp]

theorem processQueue_cp_le (o : Outcome) (s : QState)
    (h : s.currentProcessing ≤ MAX_CONCURRENT_REQUESTS) :
    (processQueue o s).currentProcessing ≤ MAX_CONCURRENT_REQUESTS := by
  unfold processQueue
  by_cases hg : MAX_CONCURRENT_REQUESTS ≤ s.currentProcessing ∨ s.queue = []
  · simpa [hg] using h
  · simp only [hg, if_false]
    cases hfind : findEligible s.processingIds s.queue with
    | none => exact h
    | some it =>
        have h2 : s.currentProcessing < MAX_CONCURRENT_REQUESTS := by
          rcases Nat.lt_or_ge s.currentProcessing MAX_CONCURRENT_REQUESTS with h1 | h1
          · exact h1
          · exact absurd (Or.inl h1) hg
        simpa using h2

theorem settleFn_currentProcessing (v : String) (resId : Nat) (o : Outcome) (s : QState) :
    (settleFn v resId o s).currentProcessing = s.currentProcessing - 1 := by
  unfold settleFn
  cases o with
  | respond r =>
      by_cases hh : hasNat s.headersSent resId
      · simp [hh, removeFromQueue_currentProcessing]
      · simp [hh, removeFromQueue_currentProcessing, send_currentProcessing]
  | raiseErr retryable =>
      by_cases hr : ((alookup v s.retryAttempts).getD 0) < maxRetries ∧ retryable
      · simp [hr, removeFromQueue_currentProcessing]
      · by_cases hh : hasNat s.headersSent resId
        · simp [hr, hh, removeFromQueue_currentProcessing]
        · simp [hr, hh, removeFromQueue_currentProcessing, send_currentProcessing]

theorem httpTimeoutFire_currentProcessing (v : String) (resId : Nat) (s : QState) :
    (httpTimeoutFire v resId s).currentProcessing = s.currentProcessing := by
  unfold httpTimeoutFire
  by_cases hh : hasNat s.headersSent resId
  · simp [hh, removeFromQueue_currentProcessing]
  · simp [hh, removeFromQueue_currentProcessing, send_currentProcessing]

theorem addFn_cp_le (v : String) (resId : Nat) (o : Outcome) (s : QState)
    (h : s.currentProcessing ≤ MAX_CONCURRENT_REQUESTS) :
    (addFn v resId o s).currentProcessing ≤ MAX_CONCURRENT_REQUESTS := by
  unfold addFn
  by_cases h1 : hasStr s.processingIds v
  · simpa [h1, send_currentProcessing] using h
  · by_cases h2 : queueHas v s.queue
    · simpa [h1, h2, send_currentProcessing] using h
    · simp only [h1, h2, if_false]
      exact processQueue_cp_le o _ h

theorem qstep_cp_le {s s' : QState} (hstep : QStep s s')
    (hs : s.currentProcessing ≤ MAX_CONCURRENT_REQUESTS) :
    s'.currentProcessing ≤ MAX_CONCURRENT_REQUESTS := by
  cases hstep with
  | add v resId o => exact addFn_cp_le v resId o s hs
  | tick o => exact processQueue_cp_le o s hs
  | fireHttpTimeout v resId h =>
      rw [httpTimeoutFire_currentProcessing]; exact hs
  | fireSettle v resId o h =>
      rw [settleFn_currentProcessing]
      exact le_trans (Nat.sub_le _ _) hs
  | fireRetryWake v d o h => exact processQueue_cp_le o _ hs
  | fireContinueTick o h => exact processQueue_cp_le o _ hs

/-! ## Claim theorems -/

/-- Claim C2 (confirmed).  A call to `add` for a `videoId` that is already in
the in-flight set (`processingIds`) or already present in the queue sends the
409 conflict response to the new caller and changes nothing else: the whole
call is exactly `send resId conflict`, so the queue, the in-flight set, the
retry map, the concurrency counter, and every pending timer — in particular
the state of the existing item — are untouched, and no new queue item is
created. -/
theorem duplicate_add_rejected_conflict (s : QState) (v : String) (resId : Nat)
    (o : Outcome)
    (h : hasStr s.processingIds v = true ∨ queueHas v s.queue = true) :
    addFn v resId o s = send resId VResp.conflict s ∧
    (addFn v resId o s).queue = s.queue ∧
    (addFn v resId o s).processingIds = s.processingIds ∧
    (addFn v resId o s).retryAttempts = s.retryAttempts ∧
    (addFn v resId o s).currentProcessing = s.currentProcessing ∧
    (addFn v resId o s).pending = s.pending ∧
    (addFn v resId o s).responses = s.responses ++ [(resId, VResp.conflict)] := by
  have heq : addFn v resId o s = send resId VResp.conflict s := by
    unfold addFn
    rcases h with h1 | h2
    · simp [h1]
    · by_cases h1 : hasStr s.processingIds v
      · simp [h1]
      · simp [h1, h2]
  refine ⟨heq, ?_, ?_, ?_, ?_, ?_, ?_⟩ <;> rw [heq] <;> rfl

/-- A state holding one queued item for video "A". -/
def dupState : QState := { initState with queue := [⟨"A", 0⟩] }

theorem duplicate_add_rejected_conflict_witness :
    (addFn "A" 1 (Outcome.respond (VResp.success false)) dupState).responses =
      dupState.responses ++ [(1, VResp.conflict)] :=
  (duplicate_add_rejected_conflict dupState "A" 1 (Outcome.respond (VResp.success false))
    (Or.inr (by decide))).2.2.2.2.2.2

/-- Claim C3 (confirmed).  In every reachable state of the scheduler — under
every interleaving of `add` calls, interval ticks, HTTP-timeout firings,
run completions, deferred retry callbacks and follow-up ticks — the number of
simultaneously active `processVideo` invocations, `currentProcessing`, never
exceeds `MAX_CONCURRENT_REQUESTS = 2`: the only increment sits in
`processQueue` behind the synchronous guard
`currentProcessing >= MAX_CONCURRENT_REQUESTS`, with no suspension point
between guard and increment. -/
theorem currentProcessing_le_max (s : QState) (h : QReachable s) :
    s.currentProcessing ≤ MAX_CONCURRENT_REQUESTS := by
  induction h with
  | refl => decide
  | tail _ hstep ih => exact qstep_cp_le hstep ih

theorem currentProcessing_le_max_witness :
    (addFn "A" 0 (Outcome.respond (VResp.success false)) initState).currentProcessing
      ≤ MAX_CONCURRENT_REQUESTS :=
  currentProcessing_le_max _
    (Relation.ReflTransGen.single
      (QStep.add initState "A" 0 (Outcome.respond (VResp.success false))))

/-! ### The dropped-retry execution.

Video "A" is submitted once (response object `0`) and its only pipeline
attempt throws a retryable error — e.g. the Gemini call fails and
`getVideoDescription` rethrows `Servicio de Gemini sobrecargado`, which
`isRetryableError` classifies as retryable.  The steps below are a real
serial schedule of the event loop: submission, then the run settles, then the
deferred retry callback (5 s) fires, then the follow-up tick (1 s) fires. -/

def rdS1 : QState := addFn "A" 0 (Outcome.raiseErr true) initState

def rdS2 : QState :=
  settleFn "A" 0 (Outcome.raiseErr true)
    { rdS1 with pending := eraseTask (TimerTask.settle "A" 0 (Outcome.raiseErr true)) rdS1.pending }

def rdS3 : QState :=
  processQueue (Outcome.raiseErr true)
    { rdS2 with pending := eraseTask (TimerTask.retryWake "A" 5000) rdS2.pending,
                processingIds := eraseStr "A" rdS2.processingIds }

def rdS4 : QState :=
  processQueue (Outcome.raiseErr true)
    { rdS3 with pending := eraseTask TimerTask.continueTick rdS3.pending }

theorem rdS2_reachable : QReachable rdS2 :=
  Relation.ReflTransGen.tail
    (Relation.ReflTransGen.single (QStep.add initState "A" 0 (Outcome.raiseErr true)))
    (QStep.fireSettle rdS1 "A" 0 (Outcome.raiseErr true) (by decide))

theorem rdS4_reachable : QReachable rdS4 :=
  Relation.ReflTransGen.tail
    (Relation.ReflTransGen.tail rdS2_reachable
      (QStep.fireRetryWake rdS2 "A" 5000 (Outcome.raiseErr true) (by decide)))
    (QStep.fireContinueTick rdS3 (Outcome.raiseErr true) (by decide))

/-- Claim C1 (code_bug).  Exactly-once delivery fails: in the reachable
dropped-retry execution the submission of "A" was accepted (its item entered
the queue), yet after the retryable failure settles and the scheduled
callbacks fire, the response log is empty, the headers of response object `0`
were never sent, and no queue item, in-flight entry, or pending timer that
could still reach response object `0` remains — the finally block of
`processQueue` removed the item and cleared its HTTP timer while the catch
block had deliberately not responded (it expected a retry), so none of the
success, error, or timeout responses is ever delivered to the caller. -/
theorem accepted_submission_can_get_no_delivery :
    QReachable rdS4 ∧
    rdS1.queue = [⟨"A", 0⟩] ∧
    rdS4.responses = [] ∧
    hasNat rdS4.headersSent 0 = false ∧
    rdS4.queue = [] ∧ rdS4.processingIds = [] ∧ rdS4.pending = [] :=
  ⟨rdS4_reachable, by decide, by decide, by decide, by decide, by decide, by decide⟩

/-- Claim C4 (code_bug).  After the retryable failure of the only attempt of
"A" (attempt count 0 below `maxRetries = 2`), the catch block does increment
the retry counter to 1 and arms the deferred callback with delay
`5000 * (0 + 1)` — but the finally block then removes the item from the queue
and clears its HTTP timer, so the job is *not* re-queued: the queue is empty
at `rdS2`, and once the deferred callback and follow-up tick fire (`rdS4`)
nothing is attempted again and no timer remains.  The delivery capability is
not pending either: no response was sent and none can be. -/
theorem retryable_failure_drops_job :
    QReachable rdS4 ∧
    alookup "A" rdS2.retryAttempts = some 1 ∧
    rdS2.pending = [TimerTask.continueTick, TimerTask.retryWake "A" 5000] ∧
    rdS2.queue = [] ∧
    rdS4.queue = [] ∧ rdS4.pending = [] ∧ rdS4.responses = [] :=
  ⟨rdS4_reachable, by decide, by decide, by decide, by decide, by decide, by decide⟩

/-! ### The exhausted-budget execution.

Continuing after `rdS4`: video "A" is submitted twice more (response objects
`1` and `2`), each run again failing with a retryable error.  The second
submission is again dropped (counter 1 → 2); on the third, the counter has
reached `maxRetries`, so the catch block takes the terminal branch and sends
the 500 carrying `attempts: 3` — to the third caller. -/

def exS5 : QState := addFn "A" 1 (Outcome.raiseErr true) rdS4

def exS6 : QState :=
  settleFn "A" 1 (Outcome.raiseErr true)
    { exS5 with pending := eraseTask (TimerTask.settle "A" 1 (Outcome.raiseErr true)) exS5.pending }

def exS7 : QState :=
  processQueue (Outcome.raiseErr true)
    { exS6 with pending := eraseTask (TimerTask.retryWake "A" 10000) exS6.pending,
                processingIds := eraseStr "A" exS6.processingIds }

def exS8 : QState :=
  processQueue (Outcome.raiseErr true)
    { exS7 with pending := eraseTask TimerTask.continueTick exS7.pending }

def exS9 : QState := addFn "A" 2 (Outcome.raiseErr true) exS8

def exS10 : QState :=
  settleFn "A" 2 (Outcome.raiseErr true)
    { exS9 with pending := eraseTask (TimerTask.settle "A" 2 (Outcome.raiseErr true)) exS9.pending }

theorem exS10_reachable : QReachable exS10 :=
  Relation.ReflTransGen.tail
    (Relation.ReflTransGen.tail
      (Relation.ReflTransGen.tail
        (Relation.ReflTransGen.tail
          (Relation.ReflTransGen.tail
            (Relation.ReflTransGen.tail rdS4_reachable
              (QStep.add rdS4 "A" 1 (Outcome.raiseErr true)))
            (QStep.fireSettle exS5 "A" 1 (Outcome.raiseErr true) (by decide)))
          (QStep.fireRetryWake exS6 "A" 10000 (Outcome.raiseErr true) (by decide)))
        (QStep.fireContinueTick exS7 (Outcome.raiseErr true) (by decide)))
      (QStep.add exS8 "A" 2 (Outcome.raiseErr true)))
    (QStep.fireSettle exS9 "A" 2 (Outcome.raiseErr true) (by decide))

/-- Claim C5 (code_bug).  For a video whose every pipeline run fails with a
retryable error, the caller who submitted it is never delivered the terminal
500: the first submission (response `0`) and the second (response `1`) get no
response at all — their items are dropped by the finally block with their
HTTP timers cleared — and only a third, separate submission (response `2`)
receives the 500 with reported attempt count `3`.  No automatic retry ever
occurs between the submissions. -/
theorem exhausted_retries_without_delivery :
    QReachable exS10 ∧
    exS10.responses = [(2, VResp.failure500 3)] ∧
    hasNat exS10.headersSent 0 = false ∧
    hasNat exS10.headersSent 1 = false ∧
    alookup "A" exS10.retryAttempts = none :=
  ⟨exS10_reachable, by decide, by decide, by decide, by decide⟩

/-! ### A Success resolution after an earlier retryable failure.

Continuing after `rdS4` (where the counter for "A" is 1): "A" is resubmitted
(response object `1`) and this run succeeds — `processVideo` sends the fresh
success response and returns normally. -/

def okS5 : QState := addFn "A" 1 (Outcome.respond (VResp.success false)) rdS4

def okS6 : QState :=
  settleFn "A" 1 (Outcome.respond (VResp.success false))
    { okS5 with
      pending := eraseTask (TimerTask.settle "A" 1 (Outcome.respond (VResp.success false))) okS5.pending }

theorem okS6_reachable : QReachable okS6 :=
  Relation.ReflTransGen.tail
    (Relation.ReflTransGen.tail rdS4_reachable
      (QStep.add rdS4 "A" 1 (Outcome.respond (VResp.success false))))
    (QStep.fireSettle okS5 "A" 1 (Outcome.respond (VResp.success false)) (by decide))

/-- Claim C6, counterexample.  A reachable state in which video "A" has just
resolved terminally with Success (the success response is in the log), yet
its entry in the retry-attempts map is *not* deleted: `retryAttempts` still
maps "A" to 1.  The success path of `processQueue` runs only the finally
block (`currentProcessing--`, `removeFromQueue`), and `removeFromQueue` never
touches `retryAttempts`. -/
theorem success_leaves_retry_counter_cex :
    QReachable okS6 ∧
    okS6.responses = [(1, VResp.success false)] ∧
    alookup "A" okS6.retryAttempts = some 1 :=
  ⟨okS6_reachable, by decide, by decide⟩

/-- Claim C6 as amended (the amended claim proved).  When a job resolves with
Success, the retry-attempts map is left entirely unchanged — the entry for the
videoId, if one exists, persists; `retryAttempts` entries are deleted only on
the terminal-failure branch of the catch block. -/
theorem success_preserves_retryAttempts (v : String) (resId : Nat) (r : VResp)
    (s : QState) :
    (settleFn v resId (Outcome.respond r) s).retryAttempts = s.retryAttempts := by
  unfold settleFn
  by_cases hh : hasNat s.headersSent resId
  · simp [hh, removeFromQueue_retryAttempts]
  · simp [hh, removeFromQueue_retryAttempts, send]

/-- Claim C7 (confirmed).  When the store already holds a row for the video,
`processVideo` responds with the stored result under `cached: true` and
returns before the analysis is started: the effect log is exactly
`[dbGet]` — neither the fetch stage (`downloadVideoFromDrive`) nor the
inference stage (`getVideoDescription`) is invoked — and the temporary
directory is untouched. -/
theorem cache_hit_no_fetch_no_infer {J : Type} (parse : String → Option J)
    (env : PVEnv J) (videoId : String) (fs : FS) (rec : DBRec)
    (h : env.dbGet = Except.ok (some rec)) :
    (processVideo parse env videoId false fs).1 =
      Except.ok (some (PVBody.cacheHit (cachedResponse parse rec))) ∧
    (cachedResponse parse rec).cached = true ∧
    Effect.download ∉ (processVideo parse env videoId false fs).2.2 ∧
    Effect.analyze ∉ (processVideo parse env videoId false fs).2.2 ∧
    (processVideo parse env videoId false fs).2.1 = fs := by
  refine ⟨?_, rfl, ?_, ?_, ?_⟩ <;> simp [processVideo, h]

def c7rec : DBRec := ⟨"B", "stored description", none⟩

def c7env : PVEnv Unit :=
  { dbGet := Except.ok (some c7rec),
    download := Except.error "unused",
    analyze := fun _ => Except.error "unused",
    insertDB := Except.ok (),
    raceTimedOut := false }

theorem cache_hit_no_fetch_no_infer_witness :
    (processVideo (fun _ => (none : Option Unit)) c7env "B" false ⟨[]⟩).1 =
      Except.ok (some (PVBody.cacheHit (cachedResponse (fun _ => none) c7rec))) ∧
    (cachedResponse (fun _ => (none : Option Unit)) c7rec).cached = true ∧
    Effect.download ∉ (processVideo (fun _ => (none : Option Unit)) c7env "B" false ⟨[]⟩).2.2 ∧
    Effect.analyze ∉ (processVideo (fun _ => (none : Option Unit)) c7env "B" false ⟨[]⟩).2.2 ∧
    (processVideo (fun _ => (none : Option Unit)) c7env "B" false ⟨[]⟩).2.1 = ⟨[]⟩ :=
  cache_hit_no_fetch_no_infer (fun _ => none) c7env "B" ⟨[]⟩ c7rec rfl

/-- Claim C8 (confirmed).  If the Gemini response text, after markdown-fence
stripping, fails to parse as JSON, `getVideoDescription` still returns a
success whose description is the error-tagged structured placeholder carrying
the (truncated) raw text — the parse failure is never surfaced as a pipeline
failure.  Stated for the first capability tier, which handles every file the
50 MB ceiling admits. -/
theorem parse_failure_degrades_gracefully {J : Type} (parse : String → Option J)
    (stat : Except String ℚ) (readF : Except String Unit)
    (attempt : String → Except String (String × Usage))
    (sizeMB : ℚ) (text : String) (usage : Usage)
    (hstat : stat = Except.ok sizeMB) (hsize : sizeMB ≤ 50)
    (hread : readF = Except.ok ())
    (hatt : attempt "gemini-2.5-flash" = Except.ok (text, usage))
    (hparse : parse (cleanResponse text) = none) :
    getVideoDescription parse true stat readF attempt =
      Except.ok { description := GDesc.parseErrorPlaceholder ((cleanResponse text).take 1000),
                  modelUsed := "gemini-2.5-flash", tokenUsage := usage } := by
  subst hstat hread
  have hnotlt : ¬(50 < sizeMB) := not_lt.mpr hsize
  simp only [getVideoDescription, modelConfigs, not_true, if_false, hnotlt,
    List.filter_cons, decide_eq_true_eq, hsize, if_true]
  simp only [List.isEmpty_cons, Bool.false_eq_true, if_false, tryModels, hatt,
    handleModelText, hparse]

def c8usage : Usage := ⟨1, 2, 3⟩

theorem parse_failure_degrades_gracefully_witness :
    getVideoDescription (fun _ => (none : Option Unit)) true (Except.ok 10) (Except.ok ())
        (fun _ => Except.ok ("not json at all", c8usage)) =
      Except.ok { description :=
                    GDesc.parseErrorPlaceholder ((cleanResponse "not json at all").take 1000),
                  modelUsed := "gemini-2.5-flash", tokenUsage := c8usage } :=
  parse_failure_degrades_gracefully (fun _ => none) (Except.ok 10) (Except.ok ())
    (fun _ => Except.ok ("not json at all", c8usage)) 10 "not json at all" c8usage
    rfl (by norm_num) rfl rfl rfl

/-- After `cleanupTempFile p`, the path `p` is not on disk. -/
theorem cleanupTempFile_not_mem (p : String) (fs : FS) :
    p ∉ (cleanupTempFile p fs).files := by
  unfold cleanupTempFile
  by_cases hp : p ∈ fs.files
  · simp [hp]
  · simp [hp]

/-- Claim C9 (confirmed).  For every run of `performVideoAnalysis` in which
the download stage delivered a temporary artifact path — under every
combination of analysis and store outcomes, the stage-timeout races included
(a lost race rejects the awaited promise, which still unwinds through the
finally block) — the cleanup step is executed on the downloaded path and the
artifact is no longer on disk when the run terminates. -/
theorem temp_artifact_cleaned_on_all_paths {J : Type}
    (download : Except String String)
    (analyze : String → Except String (AnalysisOutput J))
    (insertDB : Except String Unit) (fs : FS) (p : String)
    (h : download = Except.ok p) :
    Effect.cleanup p ∈ (performVideoAnalysis download analyze insertDB fs).2.2 ∧
    p ∉ (performVideoAnalysis download analyze insertDB fs).2.1.files := by
  subst h
  cases ha : analyze p with
  | error e =>
      refine ⟨?_, ?_⟩ <;> simp [performVideoAnalysis, ha, cleanupTempFile_not_mem]
  | ok result =>
    cases hi : insertDB with
    | error e =>
        refine ⟨?_, ?_⟩ <;> simp [performVideoAnalysis, ha, hi, cleanupTempFile_not_mem]
    | ok u =>
        refine ⟨?_, ?_⟩ <;> simp [performVideoAnalysis, ha, hi, cleanupTempFile_not_mem]

theorem temp_artifact_cleaned_on_all_paths_witness :
    Effect.cleanup "/tmp/f" ∈
      (performVideoAnalysis (J := Unit) (Except.ok "/tmp/f")
        (fun _ => Except.error "Timeout en análisis") (Except.ok ()) ⟨[]⟩).2.2 ∧
    "/tmp/f" ∉
      (performVideoAnalysis (J := Unit) (Except.ok "/tmp/f")
        (fun _ => Except.error "Timeout en análisis") (Except.ok ()) ⟨[]⟩).2.1.files :=
  temp_artifact_cleaned_on_all_paths (Except.ok "/tmp/f")
    (fun _ => Except.error "Timeout en análisis") (Except.ok ()) ⟨[]⟩ "/tmp/f" rfl

/-- `tryModels` only ever fails with `allModelsFailed`. -/
theorem tryModels_ne_allModelsTooLarge {J : Type} (parse : String → Option J)
    (attempt : String → Except String (String × Usage)) (l : List ModelConfig)
    (q : ℚ) :
    tryModels parse attempt l ≠ Except.error (GErr.allModelsTooLarge q) := by
  induction l with
  | nil => simp [tryModels]
  | cons c rest ih =>
    unfold tryModels
    cases hatt : attempt c.name with
    | error e => exact ih
    | ok pr => simp

/-- Claim C10 (confirmed).  The failure branch `Archivo demasiado grande para
todos los modelos` of `getVideoDescription` is unreachable: for every file
size, either the preceding 50 MB ceiling check rejects the file first, or the
first tier (`gemini-2.5-flash`, maximum eligible size 50 MB) passes the
eligibility filter, so the filtered list is non-empty whenever it is tested
and the function never returns that error. -/
theorem all_models_too_large_unreachable {J : Type} (parse : String → Option J)
    (configured : Bool) (stat : Except String ℚ) (readF : Except String Unit)
    (attempt : String → Except String (String × Usage)) (q : ℚ) :
    getVideoDescription parse configured stat readF attempt ≠
      Except.error (GErr.allModelsTooLarge q) := by
  unfold getVideoDescription
  by_cases hc : configured
  · simp only [hc, not_true, if_false]
    cases stat with
    | error e => simp
    | ok sizeMB =>
      by_cases hs : 50 < sizeMB
      · simp [hs]
      · have hle : sizeMB ≤ 50 := not_lt.mp hs
        have hne : (modelConfigs.filter (fun c => sizeMB ≤ c.maxSizeMB)).isEmpty = false := by
          simp [modelConfigs, List.filter_cons, hle]
        simp only [hs, if_false, hne, Bool.false_eq_true]
        cases readF with
        | error e => simp
        | ok u => simpa using tryModels_ne_allModelsTooLarge parse attempt _ q
  · simp [hc]

end VideoServer
